import Mathlib

/-!
# Verification of `ColumnProperty` (orm/properties.py)

A shallow embedding of the `ColumnProperty` mapped-property descriptor from
`src/lib/sqlalchemy/orm/properties.py`, together with proofs settling the
frozen behavioural claims about it.

The embedding models:
* the constructor `ColumnProperty.__init__` (column normalization, keyword
  option handling, `doc` derivation, unrecognized-keyword error, and
  `strategy_key` computation),
* `copy`, `merge`, `do_init`, `expression`,
* the nested `Comparator` (`__clause_element__`, `expressions`,
  `_orm_annotate_column`).

External collaborators that are part of this repository but not under the
supplied sources (the coercion service `coercions.expect`, the
de-annotation service `_orm_full_deannotate`, `util.set_creation_order`,
and the column methods `_annotate` / `_set_propagate_attrs`) are modelled
from the specification's description of their interfaces.
-/

namespace SqlAlchemy

/-- Values that can appear as ORM annotation tags on a column expression
(`entity_namespace`, `parententity`, `parentmapper`, `orm_key`,
`adapt_column`).  A mapper/entity is identified by a numeric id; the
`adapt_column` tag records the pre-adaptation column by its id. -/
inductive AnnVal where
  | mapper (id : Nat)
  | strKey (k : String)
  | colRef (id : Nat)
deriving DecidableEq, Repr

/-- A column / labeled column expression, as far as this module observes it:
an identity, an optional `doc` string, the ORM annotation tags attached to
it, and the propagate-attrs tags set by `_set_propagate_attrs`. -/
structure Column where
  cid : Nat
  doc : Option String := none
  annots : List (String × AnnVal) := []
  propagate : List (String × AnnVal) := []
deriving DecidableEq, Repr

/-- Modelled from the spec: the coercion service
`coercions.expect(roles.LabeledColumnExprRole, c)` coerces a value into a
canonical labeled column expression and "must not mutate caller-owned
objects".  On values that already are column expressions — the only inputs
representable in this embedding — the coercion returns the value
unchanged. -/
def expect_labeled_column_expr (c : Column) : Column := c

/-- Modelled from the spec: the de-annotation service
`_orm_full_deannotate(expr)` "strips prior ORM metadata", producing a fully
de-annotated copy of the expression. -/
def orm_full_deannotate (c : Column) : Column :=
  { c with annots := [] }

/-- The comparator class configured for a property
(`comparator_factory`); the default is the built-in
`ColumnProperty.Comparator`, a custom factory is identified by an id. -/
inductive ComparatorFactory where
  | builtin
  | custom (id : Nat)
deriving DecidableEq, Repr

/-- The keyword-argument dictionary accepted by `ColumnProperty.__init__`,
partitioned into the recognized keys (each `some v` meaning the key is
present in the dictionary with value `v`, `none` meaning absent) and the
list `extra` of unrecognized keys.  The dictionary key for the
`instrument` field is the string `"_instrument"`; the `descriptor` value
is an opaque accessor identified by an id; `info` is an open key-value
map. -/
structure Kwargs where
  group : Option (Option String) := none
  deferred : Option Bool := none
  raiseload : Option Bool := none
  instrument : Option Bool := none
  comparator_factory : Option ComparatorFactory := none
  descriptor : Option (Option Nat) := none
  active_history : Option Bool := none
  expire_on_flush : Option Bool := none
  info : Option (List (String × String)) := none
  doc : Option (Option String) := none
  extra : List String := []
deriving DecidableEq, Repr

/-- The empty keyword dictionary: every recognized key absent, no
unrecognized keys. -/
def Kwargs.empty : Kwargs := {}

/-- The `ColumnProperty` descriptor state established by a successful
`__init__`.  `orig_columns` is `_orig_columns`; `info : none` models the
attribute not having been assigned (it is only set when the `info` keyword
is passed); `creation_order` is `_creation_order`. -/
structure ColumnProperty where
  orig_columns : List Column
  columns : List Column
  group : Option String
  deferred : Bool
  raiseload : Bool
  instrument : Bool
  comparator_factory : ComparatorFactory
  descriptor : Option Nat
  active_history : Bool
  expire_on_flush : Bool
  info : Option (List (String × String))
  doc : Option String
  strategy_key : List (String × Bool)
  creation_order : Nat
deriving DecidableEq, Repr

instance : Inhabited ColumnProperty :=
  ⟨⟨[], [], none, false, false, true, .builtin, none, false, true, none,
    none, [], 0⟩⟩

/-- The `doc` derivation of `__init__` when no `doc` keyword is given:
`for col in reversed(self.columns): doc = getattr(col, "doc", None);
if doc is not None: self.doc = doc; break` with an `else: self.doc = None`
fall-through.  The recursion prefers the result from the tail (the later
columns, visited first by `reversed`). -/
def derive_doc : List Column → Option String
  | [] => none
  | c :: rest =>
    match derive_doc rest with
    | some d => some d
    | none => c.doc

/-- The property state assembled by the straight-line assignments of
`ColumnProperty.__init__(*columns, **kwargs)`: `_orig_columns` are the
coerced caller columns, `columns` the coerced fully de-annotated copies;
each option is popped from the keyword dictionary with its default
(`group=None`, `deferred=False`, `raiseload=False`, `_instrument=True`,
`comparator_factory=Comparator`, `descriptor=None`,
`active_history=False`, `expire_on_flush=True`); `info` is set only when
passed; `doc` falls back to the reverse-scan derivation; `strategy_key`
encodes `deferred` and `instrument` with a trailing `("raiseload", True)`
entry when `raiseload` is set.  `counter` models the process-wide
creation-order counter read by `util.set_creation_order` (modelled from
the spec: "globally unique, strictly increasing creationOrder" drawn from
a shared counter). -/
def ColumnProperty.fromInit (columns : List Column) (kw : Kwargs)
    (counter : Nat) : ColumnProperty :=
  { orig_columns := columns.map expect_labeled_column_expr
    columns := columns.map
      (fun c => expect_labeled_column_expr (orm_full_deannotate c))
    group := kw.group.getD none
    deferred := kw.deferred.getD false
    raiseload := kw.raiseload.getD false
    instrument := kw.instrument.getD true
    comparator_factory := kw.comparator_factory.getD .builtin
    descriptor := kw.descriptor.getD none
    active_history := kw.active_history.getD false
    expire_on_flush := kw.expire_on_flush.getD true
    info := kw.info
    doc :=
      match kw.doc with
      | some d => d
      | none =>
        derive_doc (columns.map
          (fun c => expect_labeled_column_expr (orm_full_deannotate c)))
    strategy_key :=
      [("deferred", kw.deferred.getD false),
       ("instrument", kw.instrument.getD true)] ++
        (if kw.raiseload.getD false then [("raiseload", true)] else [])
    creation_order := counter }

/-- The `TypeError` message raised on unrecognized keyword arguments:
`"%s received unexpected keyword argument(s): %s" % (cls, ", ".join(sorted(kwargs.keys())))`. -/
def unexpectedKwargsMsg (extra : List String) : String :=
  "ColumnProperty received unexpected keyword argument(s): " ++
    String.intercalate ", " (extra.insertionSort (· ≤ ·))

/-- Embeds `ColumnProperty.__init__(*columns, **kwargs)`: succeeds with the
assembled property and the incremented creation-order counter when every
keyword is recognized, and raises a `TypeError` naming the sorted
unrecognized keys otherwise (no property is produced). -/
def ColumnProperty.init (columns : List Column) (kw : Kwargs)
    (counter : Nat) : Except String (ColumnProperty × Nat) :=
  if kw.extra.isEmpty then
    .ok (ColumnProperty.fromInit columns kw counter, counter + 1)
  else
    .error (unexpectedKwargsMsg kw.extra)

/-- Embeds `ColumnProperty.copy()`: constructs a fresh `ColumnProperty` from
`self.columns` passing only the keywords `deferred=self.deferred`,
`group=self.group`, `active_history=self.active_history`. -/
def ColumnProperty.copy (p : ColumnProperty) (counter : Nat) :
    Except String (ColumnProperty × Nat) :=
  ColumnProperty.init p.columns
    { Kwargs.empty with
      deferred := some p.deferred
      group := some p.group
      active_history := some p.active_history } counter

/-- Embeds `ColumnProperty.expression`: the primary column `self.columns[0]`,
`none` modelling the `IndexError` on an empty column list. -/
def ColumnProperty.expression (p : ColumnProperty) : Option Column :=
  p.columns.head?

/-- Embeds `ColumnProperty.do_init()`: returns the (unchanged) property together
with whether the ambiguous-primary-key warning `util.warn(...)` is
emitted, i.e. whether `len(self.columns) > 1` and
`set(self.parent.primary_key).issuperset(self.columns)`.
`parent_primary_key` is the parent mapping's primary-key column
collection. -/
def ColumnProperty.do_init (p : ColumnProperty)
    (parent_primary_key : List Column) : ColumnProperty × Bool :=
  (p,
    decide (1 < p.columns.length) &&
      p.columns.all (fun c => decide (c ∈ parent_primary_key)))

/-- The values held in per-instance attribute dictionaries
(`source_dict` / `dest_dict` of `merge`). -/
abbrev Value := Int

/-- An instance attribute dictionary, as an association list with at most
one entry per key. -/
abbrev AttrDict := List (String × Value)

/-- Dictionary lookup `d[k]`, returning `none` when the key is absent. -/
def dictGet (d : AttrDict) (k : String) : Option Value :=
  (d.find? (fun p => p.1 = k)).map (·.2)

/-- Dictionary membership `k in d`. -/
def dictContains (d : AttrDict) (k : String) : Bool :=
  d.any (fun p => p.1 = k)

/-- Dictionary assignment `d[k] = v`: overwrite the entry for `k` when present, append it
otherwise. -/
def dictSet (d : AttrDict) (k : String) (v : Value) : AttrDict :=
  if d.any (fun p => p.1 = k) then
    d.map (fun p => if p.1 = k then (k, v) else p)
  else
    d ++ [(k, v)]

/-- The observable outcome of one `merge` call: the destination dictionary
after the call, the calls `impl.set(dest_state, dest_dict, value, None)`
made on the destination's attribute implementation (recorded as
`(key, value)`), and the calls
`dest_state._expire_attributes(dest_dict, [key], no_loader=True)`
(recorded as `(key, no_loader)`). -/
structure MergeEffects where
  dest_dict : AttrDict
  impl_set : List (String × Value)
  expired : List (String × Bool)
deriving DecidableEq, Repr

/-- Embeds `ColumnProperty.merge(session, source_state, source_dict, dest_state,
dest_dict, load, _recursive, _resolve_conflict_map)`.  `key` is the
property's attribute name `self.key` (assigned externally at mapping
time); `dest_has_identity` is `dest_state.has_identity`.  The session and
the recursion-guard arguments are unused by the source and omitted. -/
def ColumnProperty.merge (p : ColumnProperty) (key : String)
    (source_dict : AttrDict) (dest_has_identity : Bool)
    (dest_dict : AttrDict) (load : Bool) : MergeEffects :=
  if !p.instrument then
    ⟨dest_dict, [], []⟩
  else
    match dictGet source_dict key with
    | some value =>
      if !load then
        ⟨dictSet dest_dict key value, [], []⟩
      else
        ⟨dest_dict, [(key, value)], []⟩
    | none =>
      if dest_has_identity && !dictContains dest_dict key then
        ⟨dest_dict, [], [(key, true)]⟩
      else
        ⟨dest_dict, [], []⟩

/-- A `ColumnProperty.Comparator` bound to a property.  `key` is
`self.prop.key`; `parent_entity` identifies `self._parententity` (which
the source also uses as `self._parentmapper`); `polymorphic_adapter`, when
present, is the parent mapper's `_polymorphic_adapter.traverse`;
`adapter` is the aliased/polymorphic rewrite `self.adapter`. -/
structure Comparator where
  prop : ColumnProperty
  key : String
  parent_entity : Nat
  polymorphic_adapter : Option (Column → Column) := none
  adapter : Option (Column → String → Column) := none

/-- Modelled from the spec: `col._annotate(d)` "attaches a fixed set of
metadata tags to a column expression" — the tags are appended to the
column's annotation map. -/
def Column.annotate (c : Column) (d : List (String × AnnVal)) : Column :=
  { c with annots := c.annots ++ d }

/-- Modelled from the spec: `col._set_propagate_attrs({...})` "marks the
result as belonging to the ORM compilation plugin scope". -/
def Column.set_propagate_attrs (c : Column)
    (d : List (String × AnnVal)) : Column :=
  { c with propagate := d }

/-- Embeds `Comparator._orm_annotate_column(column)`: build the annotation map
(`entity_namespace`, `parententity`, `parentmapper`, `orm_key`), rewrite
the column through the parent mapper's polymorphic adapter when one is
present (also recording the pre-adaptation column under `adapt_column`),
then annotate and set the propagate attrs
(`compile_state_plugin: orm`, `plugin_subject: pe`). -/
def Comparator.orm_annotate_column (cmp : Comparator) (column : Column) :
    Column :=
  let annBase : List (String × AnnVal) :=
    [("entity_namespace", .mapper cmp.parent_entity),
     ("parententity", .mapper cmp.parent_entity),
     ("parentmapper", .mapper cmp.parent_entity),
     ("orm_key", .strKey cmp.key)]
  let adapted : Column × List (String × AnnVal) :=
    match cmp.polymorphic_adapter with
    | some traverse =>
      ((traverse column), annBase ++ [("adapt_column", .colRef column.cid)])
    | none => (column, annBase)
  (Column.annotate adapted.1 adapted.2).set_propagate_attrs
    [("compile_state_plugin", .strKey "orm"),
     ("plugin_subject", .mapper cmp.parent_entity)]

/-- Embeds `Comparator.__clause_element__` (memoized): with an adapter bound,
`self.adapter(self.prop.columns[0], self.prop.key)`; otherwise the
annotated primary column.  `none` models the `IndexError` raised when the
property has no columns. -/
def Comparator.clause_element (cmp : Comparator) : Option Column :=
  match cmp.prop.columns with
  | [] => none
  | col0 :: _ =>
    match cmp.adapter with
    | some f => some (f col0 cmp.key)
    | none => some (cmp.orm_annotate_column col0)

/-- Embeds `Comparator.expressions` (memoized): each column of the property,
individually adapted when an adapter is bound, annotated otherwise. -/
def Comparator.expressions (cmp : Comparator) : List Column :=
  match cmp.adapter with
  | some f => cmp.prop.columns.map (fun col => f col cmp.key)
  | none => cmp.prop.columns.map cmp.orm_annotate_column

/-! ## Theorems -/

/-- Characterization of a successful `__init__`: construction succeeds
exactly when there is no unrecognized keyword, and then produces the
assembled property and the incremented counter. -/
theorem init_ok_iff (cols : List Column) (kw : Kwargs) (counter : Nat)
    (r : ColumnProperty × Nat) :
    ColumnProperty.init cols kw counter = .ok r ↔
      kw.extra = [] ∧
        r = (ColumnProperty.fromInit cols kw counter, counter + 1) := by
  constructor
  · intro h
    unfold ColumnProperty.init at h
    split at h
    · rename_i hemp
      injection h with h2
      exact ⟨List.isEmpty_iff.mp hemp, h2.symm⟩
    · exact absurd h (by simp)
  · rintro ⟨hex, rfl⟩
    unfold ColumnProperty.init
    simp [hex]

/-- C3: for every successful construction, `strategy_key` equals the
ordered pair of the `deferred` and `instrument` entries when `raiseload`
is false, and has exactly the additional entry `("raiseload", true)`
appended at the end when `raiseload` is true; in particular for
`deferred=False, instrument=True, raiseload=False` it equals
`[("deferred", false), ("instrument", true)]`. -/
theorem strategy_key_of_init (cols : List Column) (kw : Kwargs)
    (counter counter' : Nat) (p : ColumnProperty)
    (h : ColumnProperty.init cols kw counter = .ok (p, counter')) :
    (p.raiseload = false →
      p.strategy_key =
        [("deferred", p.deferred), ("instrument", p.instrument)]) ∧
    (p.raiseload = true →
      p.strategy_key =
        [("deferred", p.deferred), ("instrument", p.instrument),
         ("raiseload", true)]) ∧
    (p.deferred = false → p.instrument = true → p.raiseload = false →
      p.strategy_key = [("deferred", false), ("instrument", true)]) := by
  have hp : p = ColumnProperty.fromInit cols kw counter :=
    congrArg Prod.fst (((init_ok_iff cols kw counter _).1 h).2)
  subst hp
  refine ⟨?_, ?_, ?_⟩
  · intro h1
    simp only [ColumnProperty.fromInit] at h1 ⊢
    simp [h1]
  · intro h1
    simp only [ColumnProperty.fromInit] at h1 ⊢
    simp [h1]
  · intro h1 h2 h3
    simp only [ColumnProperty.fromInit] at h1 h2 h3 ⊢
    simp [h1, h2, h3]

/-- Witness for `strategy_key_of_init` at a concrete one-column
construction with no options. -/
theorem strategy_key_of_init_witness :
    ColumnProperty.init [⟨0, none, [], []⟩] Kwargs.empty 0 =
      .ok (ColumnProperty.fromInit [⟨0, none, [], []⟩] Kwargs.empty 0, 1) ∧
    (ColumnProperty.fromInit [⟨0, none, [], []⟩] Kwargs.empty 0).strategy_key
      = [("deferred", false), ("instrument", true)] :=
  ⟨rfl, (strategy_key_of_init [⟨0, none, [], []⟩] Kwargs.empty 0 1 _
      rfl).2.2 rfl rfl rfl⟩

/-- C10: for every construction with `raiseload=True` and the `deferred`
keyword left unspecified, the stored `deferred` attribute remains false:
`raiseload` only appends its `strategy_key` entry and never writes the
`deferred` flag. -/
theorem raiseload_leaves_deferred_false (cols : List Column) (kw : Kwargs)
    (counter counter' : Nat) (p : ColumnProperty)
    (h : ColumnProperty.init cols kw counter = .ok (p, counter'))
    (hraise : kw.raiseload = some true) (hdef : kw.deferred = none) :
    p.deferred = false ∧ p.raiseload = true ∧
      p.strategy_key =
        [("deferred", false), ("instrument", p.instrument),
         ("raiseload", true)] := by
  have hp : p = ColumnProperty.fromInit cols kw counter :=
    congrArg Prod.fst (((init_ok_iff cols kw counter _).1 h).2)
  subst hp
  simp [ColumnProperty.fromInit, hraise, hdef]

/-- Witness for `raiseload_leaves_deferred_false` at a concrete
construction passing only `raiseload=True`. -/
theorem raiseload_leaves_deferred_false_witness :
    ColumnProperty.init [⟨0, none, [], []⟩]
        { Kwargs.empty with raiseload := some true } 0 =
      .ok (ColumnProperty.fromInit [⟨0, none, [], []⟩]
        { Kwargs.empty with raiseload := some true } 0, 1) ∧
    (ColumnProperty.fromInit [⟨0, none, [], []⟩]
        { Kwargs.empty with raiseload := some true } 0).deferred = false :=
  ⟨rfl, (raiseload_leaves_deferred_false [⟨0, none, [], []⟩]
      { Kwargs.empty with raiseload := some true } 0 1 _ rfl rfl rfl).1⟩

/-- C4: for every keyword dictionary containing at least one unrecognized
key, construction fails with a `TypeError`-class error whose message
enumerates every unrecognized key, sorted ascending, joined in one
combined message, and no property is produced. -/
theorem init_unrecognized_kwargs (cols : List Column) (kw : Kwargs)
    (counter : Nat) (h : kw.extra ≠ []) :
    ColumnProperty.init cols kw counter =
      .error ("ColumnProperty received unexpected keyword argument(s): " ++
        String.intercalate ", " (kw.extra.insertionSort (· ≤ ·))) ∧
    (kw.extra.insertionSort (· ≤ ·)).Sorted (· ≤ ·) ∧
    (kw.extra.insertionSort (· ≤ ·)).Perm kw.extra ∧
    (∀ r, ColumnProperty.init cols kw counter ≠ .ok r) := by
  have hne : kw.extra.isEmpty = false := by
    cases hx : kw.extra with
    | nil => exact absurd hx h
    | cons a t => rfl
  have herr : ColumnProperty.init cols kw counter =
      .error ("ColumnProperty received unexpected keyword argument(s): " ++
        String.intercalate ", " (kw.extra.insertionSort (· ≤ ·))) := by
    unfold ColumnProperty.init
    simp [hne, unexpectedKwargsMsg]
  refine ⟨herr, List.sorted_insertionSort _ _, List.perm_insertionSort _ _,
    fun r hok => ?_⟩
  rw [herr] at hok
  exact absurd hok (by simp)

/-- Witness for `init_unrecognized_kwargs` at a concrete keyword
dictionary with the unrecognized key `"bogus"`. -/
theorem init_unrecognized_kwargs_witness :
    ColumnProperty.init [] { Kwargs.empty with extra := ["bogus"] } 0 =
      .error
        "ColumnProperty received unexpected keyword argument(s): bogus"
      := by
  have h := (init_unrecognized_kwargs []
    { Kwargs.empty with extra := ["bogus"] } 0 (by decide)).1
  rw [h]
  rfl

/-- The `doc` fallback scan is the first `doc` found when walking the
column list in reverse order. -/
theorem derive_doc_eq_reverse_find (cols : List Column) :
    derive_doc cols =
      (cols.reverse.find? (fun c => c.doc.isSome)).bind Column.doc := by
  induction cols with
  | nil => rfl
  | cons c rest ih =>
    rw [derive_doc, ih, List.reverse_cons, List.find?_append]
    cases hf : rest.reverse.find? (fun c => c.doc.isSome) with
    | none =>
      cases hd : c.doc with
      | none => simp [List.find?, hd]
      | some d => simp [List.find?, hd]
    | some col =>
      have hcol : col.doc.isSome = true := by
        simpa using List.find?_some hf
      cases hd : col.doc with
      | none => rw [hd] at hcol; cases hcol
      | some d => simp [hd]

/-- C5: for every construction where no `doc` keyword is supplied, the
resulting `doc` equals the documentation of the last column carrying one
(first hit of a reverse-order scan of the normalized column list), and is
`none` when no column carries documentation; a supplied `doc` keyword is
used verbatim. -/
theorem doc_of_init (cols : List Column) (kw : Kwargs)
    (counter counter' : Nat) (p : ColumnProperty)
    (h : ColumnProperty.init cols kw counter = .ok (p, counter')) :
    (∀ d, kw.doc = some d → p.doc = d) ∧
    (kw.doc = none →
      p.doc =
        (p.columns.reverse.find? (fun c => c.doc.isSome)).bind Column.doc ∧
      ((∀ c ∈ p.columns, c.doc = none) → p.doc = none)) := by
  have hp : p = ColumnProperty.fromInit cols kw counter :=
    congrArg Prod.fst (((init_ok_iff cols kw counter _).1 h).2)
  subst hp
  refine ⟨fun d hd => ?_, fun hd => ⟨?_, fun hall => ?_⟩⟩
  · simp [ColumnProperty.fromInit, hd]
  · simp [ColumnProperty.fromInit, hd, derive_doc_eq_reverse_find]
  · have hnone :
        ((ColumnProperty.fromInit cols kw counter).columns.reverse.find?
          (fun c => c.doc.isSome)) = none := by
      rw [List.find?_eq_none]
      intro x hx
      have hxmem : x ∈ (ColumnProperty.fromInit cols kw counter).columns :=
        List.mem_reverse.mp hx
      simp [hall x hxmem]
    have h2 : (ColumnProperty.fromInit cols kw counter).doc =
        ((ColumnProperty.fromInit cols kw counter).columns.reverse.find?
          (fun c => c.doc.isSome)).bind Column.doc := by
      simp [ColumnProperty.fromInit, hd, derive_doc_eq_reverse_find]
    rw [h2, hnone]
    rfl

/-- Witness for `doc_of_init`: a two-column construction where only the
first column carries documentation, so the reverse scan lands on it. -/
theorem doc_of_init_witness :
    ColumnProperty.init [⟨1, some "first", [], []⟩, ⟨2, none, [], []⟩]
        Kwargs.empty 0 =
      .ok (ColumnProperty.fromInit
        [⟨1, some "first", [], []⟩, ⟨2, none, [], []⟩] Kwargs.empty 0, 1) ∧
    (ColumnProperty.fromInit
        [⟨1, some "first", [], []⟩, ⟨2, none, [], []⟩] Kwargs.empty 0).doc =
      (((ColumnProperty.fromInit
        [⟨1, some "first", [], []⟩, ⟨2, none, [], []⟩]
          Kwargs.empty 0).columns.reverse.find?
            (fun c => c.doc.isSome)).bind Column.doc) :=
  ⟨rfl, ((doc_of_init
      [⟨1, some "first", [], []⟩, ⟨2, none, [], []⟩] Kwargs.empty 0 1 _
      rfl).2 rfl).1⟩

/-- C6: for every successful construction, the property's `columns` list
has the same length as the input, order-preserved with no deduplication
(`columns` is the pointwise de-annotation of the input), while
`_orig_columns` retains the caller-supplied references. -/
theorem columns_of_init (cols : List Column) (kw : Kwargs)
    (counter counter' : Nat) (p : ColumnProperty)
    (h : ColumnProperty.init cols kw counter = .ok (p, counter')) :
    p.columns.length = cols.length ∧
    p.orig_columns = cols ∧
    p.columns = cols.map orm_full_deannotate ∧
    (∀ i : Nat, p.columns[i]? = (cols[i]?).map orm_full_deannotate) ∧
    (∀ c ∈ p.columns, c.annots = []) := by
  have hp : p = ColumnProperty.fromInit cols kw counter :=
    congrArg Prod.fst (((init_ok_iff cols kw counter _).1 h).2)
  subst hp
  refine ⟨by simp [ColumnProperty.fromInit], ?_, ?_, fun i => ?_, ?_⟩
  · show List.map expect_labeled_column_expr cols = cols
    exact List.map_id cols
  · simp [ColumnProperty.fromInit, expect_labeled_column_expr]
  · simp [ColumnProperty.fromInit, expect_labeled_column_expr]
  · intro c hc
    simp only [ColumnProperty.fromInit, List.mem_map] at hc
    obtain ⟨a, _, rfl⟩ := hc
    rfl

/-- Witness for `columns_of_init` at a concrete two-column construction
(the first column carrying an annotation that de-annotation strips). -/
theorem columns_of_init_witness :
    ColumnProperty.init
        [⟨1, none, [("orm_key", .strKey "k")], []⟩, ⟨2, none, [], []⟩]
        Kwargs.empty 0 =
      .ok (ColumnProperty.fromInit
        [⟨1, none, [("orm_key", .strKey "k")], []⟩, ⟨2, none, [], []⟩]
        Kwargs.empty 0, 1) ∧
    (ColumnProperty.fromInit
        [⟨1, none, [("orm_key", .strKey "k")], []⟩, ⟨2, none, [], []⟩]
        Kwargs.empty 0).columns.length = 2 :=
  ⟨rfl, by
    rw [(columns_of_init
      [⟨1, none, [("orm_key", .strKey "k")], []⟩, ⟨2, none, [], []⟩]
      Kwargs.empty 0 1 _ rfl).1]
    rfl⟩

/-- C9 counterexample: `ColumnProperty()` with zero columns constructs
successfully, with an empty `columns` list — the constructor does not
enforce non-emptiness. -/
theorem init_empty_columns_succeeds :
    ColumnProperty.init [] Kwargs.empty 0 =
      .ok (ColumnProperty.fromInit [] Kwargs.empty 0, 1) ∧
    (ColumnProperty.fromInit [] Kwargs.empty 0).columns = [] ∧
    (ColumnProperty.fromInit [] Kwargs.empty 0).expression = none :=
  ⟨rfl, rfl, rfl⟩

/-- C9 (amended): for every successful construction from a non-empty
input column list, the property's `columns` list is non-empty and the
primary expression `columns[0]` exists; the constructor itself never
rejects a column list for being empty. -/
theorem columns_nonempty_of_input_nonempty (cols : List Column)
    (kw : Kwargs) (counter counter' : Nat) (p : ColumnProperty)
    (h : ColumnProperty.init cols kw counter = .ok (p, counter'))
    (hne : cols ≠ []) :
    p.columns ≠ [] ∧ p.expression.isSome = true := by
  have hp : p = ColumnProperty.fromInit cols kw counter :=
    congrArg Prod.fst (((init_ok_iff cols kw counter _).1 h).2)
  subst hp
  cases cols with
  | nil => exact absurd rfl hne
  | cons c rest =>
    exact ⟨by simp [ColumnProperty.fromInit],
      by simp [ColumnProperty.fromInit, ColumnProperty.expression]⟩

/-- Witness for `columns_nonempty_of_input_nonempty` at a concrete
one-column construction. -/
theorem columns_nonempty_of_input_nonempty_witness :
    (ColumnProperty.fromInit [⟨3, none, [], []⟩] Kwargs.empty 0).columns
      ≠ [] :=
  (columns_nonempty_of_input_nonempty [⟨3, none, [], []⟩] Kwargs.empty 0 1 _
    rfl (by decide)).1

/-- C1: the three-way `merge` contract.  With `instrument` true: a source
value present with `load=False` is copied raw into the destination
dictionary and `impl.set` is never invoked; a source value present with
`load=True` goes through `impl.set` with that value; a source value
absent, with the destination having a persistent identity and also
lacking the key, triggers `_expire_attributes` for exactly that key with
`no_loader=True` and writes no value.  With `instrument` false, `merge`
changes nothing. -/
theorem merge_three_way (p : ColumnProperty) (key : String) (sd : AttrDict)
    (hid : Bool) (dd : AttrDict) (load : Bool) :
    (p.instrument = false → p.merge key sd hid dd load = ⟨dd, [], []⟩) ∧
    (p.instrument = true →
      (∀ v, dictGet sd key = some v →
        (load = false →
          p.merge key sd hid dd load = ⟨dictSet dd key v, [], []⟩) ∧
        (load = true →
          p.merge key sd hid dd load = ⟨dd, [(key, v)], []⟩)) ∧
      (dictGet sd key = none → hid = true → dictContains dd key = false →
        p.merge key sd hid dd load = ⟨dd, [], [(key, true)]⟩)) := by
  refine ⟨fun hinstr => ?_,
    fun hinstr => ⟨fun v hv => ⟨fun hl => ?_, fun hl => ?_⟩,
      fun hv hi hc => ?_⟩⟩
  · simp [ColumnProperty.merge, hinstr]
  · simp [ColumnProperty.merge, hinstr, hv, hl]
  · simp [ColumnProperty.merge, hinstr, hv, hl]
  · simp [ColumnProperty.merge, hinstr, hv, hi, hc]

/-- A concrete instrumented property over one column, used as the merge
receiver in witnesses. -/
def instrSampleProp : ColumnProperty :=
  ColumnProperty.fromInit [⟨1, none, [], []⟩] Kwargs.empty 0

/-- A concrete property constructed with `_instrument=False`. -/
def noInstrSampleProp : ColumnProperty :=
  ColumnProperty.fromInit [⟨1, none, [], []⟩]
    { Kwargs.empty with instrument := some false } 0

/-- Witness for `merge_three_way`: the four concrete merge scenarios of
the specification (`"x"` present with `load=False`, present with
`load=True`, absent with identity, and `instrument=False`). -/
theorem merge_three_way_witness :
    instrSampleProp.merge "x" [("x", 5)] false [] false =
      ⟨[("x", 5)], [], []⟩ ∧
    instrSampleProp.merge "x" [("x", 5)] false [] true =
      ⟨[], [("x", 5)], []⟩ ∧
    instrSampleProp.merge "x" [] true [] false = ⟨[], [], [("x", true)]⟩ ∧
    noInstrSampleProp.merge "x" [("x", 5)] true [] false = ⟨[], [], []⟩ := by
  refine ⟨?_, ?_, ?_, ?_⟩
  · rw [(((merge_three_way instrSampleProp "x" [("x", 5)] false [] false).2
      rfl).1 5 rfl).1 rfl]
    rfl
  · rw [(((merge_three_way instrSampleProp "x" [("x", 5)] false [] true).2
      rfl).1 5 rfl).2 rfl]
  · rw [((merge_three_way instrSampleProp "x" [] true [] false).2
      rfl).2 rfl rfl rfl]
  · rw [(merge_three_way noInstrSampleProp "x" [("x", 5)] true [] false).1
      rfl]

/-- C7: `do_init` leaves the property unchanged and emits the non-fatal
ambiguous-primary-key warning exactly when the property has more than one
column and every one of its columns belongs to the parent mapping's
primary key. -/
theorem do_init_warning_iff (p : ColumnProperty) (pk : List Column) :
    (p.do_init pk).1 = p ∧
    ((p.do_init pk).2 = true ↔
      1 < p.columns.length ∧ ∀ c ∈ p.columns, c ∈ pk) := by
  refine ⟨rfl, ?_⟩
  simp [ColumnProperty.do_init, List.all_eq_true]

/-- A concrete property constructed with `deferred=True` on one column. -/
def deferredSampleProp : ColumnProperty :=
  ColumnProperty.fromInit [⟨0, none, [], []⟩]
    { Kwargs.empty with deferred := some true } 0

/-- C2 counterexample: for a property built with `deferred=True`,
`copy()` yields a property whose `deferred` is `true` — `copy` passes
`deferred=self.deferred` through, so `copy().deferred` is not reset to
`False` as claimed. -/
theorem copy_keeps_deferred_counterexample :
    deferredSampleProp.deferred = true ∧
    (deferredSampleProp.copy 1).toOption.map (fun r => r.1.deferred) =
      some true ∧
    ¬((deferredSampleProp.copy 1).toOption.map (fun r => r.1.deferred) =
      some false) :=
  ⟨rfl, rfl, by decide⟩

/-- De-annotating an already de-annotated column list is the identity. -/
theorem map_deannotate_of_deannotated (l : List Column)
    (h : ∀ c ∈ l, c.annots = []) :
    l.map (fun c => expect_labeled_column_expr (orm_full_deannotate c))
      = l := by
  induction l with
  | nil => rfl
  | cons c t ih =>
    have hc : expect_labeled_column_expr (orm_full_deannotate c) = c := by
      have := h c (List.mem_cons_self c t)
      cases c
      simp_all [orm_full_deannotate, expect_labeled_column_expr]
    rw [List.map_cons, hc, ih (fun x hx => h x (List.mem_cons_of_mem _ hx))]

/-- C2 (amended): for every property whose columns are de-annotated (as
every constructed property's are), `copy()` succeeds and returns a new
property that preserves `columns`, `group`, `active_history` AND
`deferred`, while every other option (`raiseload`, `instrument`,
`comparator_factory`, `descriptor`, `expire_on_flush`, `info`) is reset
to its default. -/
theorem copy_spec (p : ColumnProperty) (counter : Nat)
    (hde : ∀ c ∈ p.columns, c.annots = []) :
    ((p.copy counter).toOption.map fun r =>
      (r.1.columns, r.1.group, r.1.active_history, r.1.deferred,
       r.1.raiseload, r.1.instrument, r.1.comparator_factory,
       r.1.descriptor, r.1.expire_on_flush, r.1.info)) =
      some (p.columns, p.group, p.active_history, p.deferred,
        false, true, ComparatorFactory.builtin, none, true, none) := by
  have hok : p.copy counter =
      .ok (ColumnProperty.fromInit p.columns
        { Kwargs.empty with
          deferred := some p.deferred
          group := some p.group
          active_history := some p.active_history } counter,
        counter + 1) := rfl
  rw [hok]
  simp only [Except.toOption, Option.map_some']
  refine congrArg some ?_
  simp [ColumnProperty.fromInit, map_deannotate_of_deannotated p.columns hde,
    Kwargs.empty]

/-- Witness for `copy_spec` at the concrete `deferred=True` property. -/
theorem copy_spec_witness :
    ((deferredSampleProp.copy 5).toOption.map fun r =>
      (r.1.columns, r.1.group, r.1.active_history, r.1.deferred,
       r.1.raiseload, r.1.instrument, r.1.comparator_factory,
       r.1.descriptor, r.1.expire_on_flush, r.1.info)) =
      some (deferredSampleProp.columns, deferredSampleProp.group,
        deferredSampleProp.active_history, deferredSampleProp.deferred,
        false, true, ComparatorFactory.builtin, none, true, none) :=
  copy_spec deferredSampleProp 5 (by decide)

/-- C8: with an adapter bound, the comparator's clause element is exactly
`adapter(columns[0], key)` with no annotation applied; with no adapter
bound, `expressions` is exactly one annotated column per entry of the
property's columns, in the same order. -/
theorem comparator_clause_and_expressions (cmp : Comparator) :
    (∀ f col0 rest, cmp.adapter = some f →
      cmp.prop.columns = col0 :: rest →
      cmp.clause_element = some (f col0 cmp.key)) ∧
    (cmp.adapter = none →
      cmp.expressions.length = cmp.prop.columns.length ∧
      ∀ i : Nat, cmp.expressions[i]? =
        (cmp.prop.columns[i]?).map cmp.orm_annotate_column) := by
  refine ⟨fun f col0 rest ha hc => ?_, fun ha => ⟨?_, fun i => ?_⟩⟩
  · simp [Comparator.clause_element, ha, hc]
  · simp [Comparator.expressions, ha]
  · simp [Comparator.expressions, ha, List.getElem?_map]

/-- A concrete two-column property for the comparator witnesses. -/
def cmpSampleProp : ColumnProperty :=
  ColumnProperty.fromInit [⟨1, none, [], []⟩, ⟨2, none, [], []⟩]
    Kwargs.empty 0

/-- A comparator over `cmpSampleProp` with an adapter bound (the adapter
shifts the column id by 100). -/
def cmpSampleAdapted : Comparator :=
  { prop := cmpSampleProp
    key := "x"
    parent_entity := 7
    adapter := some (fun c _ => { c with cid := c.cid + 100 }) }

/-- A comparator over `cmpSampleProp` with no adapter bound. -/
def cmpSamplePlain : Comparator :=
  { prop := cmpSampleProp, key := "x", parent_entity := 7 }

/-- Witness for `comparator_clause_and_expressions`: the adapted
comparator's clause element is the adapter applied to the first column,
and the plain comparator's expression list has one entry per column. -/
theorem comparator_clause_and_expressions_witness :
    cmpSampleAdapted.clause_element = some ⟨101, none, [], []⟩ ∧
    cmpSamplePlain.expressions.length = 2 ∧
    cmpSamplePlain.expressions[0]? =
      some (cmpSamplePlain.orm_annotate_column ⟨1, none, [], []⟩) := by
  refine ⟨?_, ?_, ?_⟩
  · rw [(comparator_clause_and_expressions cmpSampleAdapted).1
      (fun c _ => { c with cid := c.cid + 100 }) ⟨1, none, [], []⟩
      [⟨2, none, [], []⟩] rfl rfl]
  · rw [((comparator_clause_and_expressions cmpSamplePlain).2 rfl).1]
    rfl
  · rw [((comparator_clause_and_expressions cmpSamplePlain).2 rfl).2 0]
    rfl

end SqlAlchemy
